import Mathlib

/-!
Verification development for the 4tronix rover control core:
the motor-command translation (`calculate_motor_command` in
`real-rover/rover_server.py`) and the directional-state machine
(`RoverWebDriver` in `rover_web_driver.py`), shallowly embedded.
-/

namespace Rover

/-! ## CommandTranslator (real-rover/rover_server.py, calculate_motor_command) -/

/-- A maneuver returned by `calculate_motor_command`: the name of the rover
function to call together with its parameters. -/
inductive Maneuver
  | stop
  | forward (speed : Int)
  | turnForward (leftSpeed rightSpeed : Int)
  | reverse (speed : Int)
  | turnReverse (leftSpeed rightSpeed : Int)
  | spinLeft (speed : Int)
  | spinRight (speed : Int)
deriving DecidableEq, Repr

/-- Net speed of one side (rover_server.py lines 87-95): if both the forward
and the reverse duty are positive the net speed is 0, otherwise it is
forward minus reverse. -/
def netSpeed (fwd rev : Int) : Int :=
  if fwd > 0 ∧ rev > 0 then 0 else fwd - rev

/-- `calculate_motor_command` (rover_server.py lines 78-127): translate the
four duty cycles (left forward, left reverse, right forward, right reverse)
into a maneuver.  Python's `int((abs l + abs r) / 2)` on nonnegative
operands is floor division, written here as integer division by 2. -/
def calculate_motor_command (left_fwd left_rev right_fwd right_rev : Int) : Maneuver :=
  let speed_left := netSpeed left_fwd left_rev
  let speed_right := netSpeed right_fwd right_rev
  if speed_left = 0 ∧ speed_right = 0 then
    .stop
  else if speed_left > 0 ∧ speed_right > 0 then
    if speed_left = speed_right then .forward speed_left
    else .turnForward speed_left speed_right
  else if speed_left < 0 ∧ speed_right < 0 then
    if speed_left = speed_right then .reverse (abs speed_left)
    else .turnReverse (abs speed_left) (abs speed_right)
  else if speed_left < 0 ∧ speed_right > 0 then
    .spinLeft ((abs speed_left + abs speed_right) / 2)
  else if speed_left > 0 ∧ speed_right < 0 then
    .spinRight ((abs speed_left + abs speed_right) / 2)
  else
    .stop

/-- The defensive fallback (step 7, the final `else` of
`calculate_motor_command`) is taken exactly when none of the five explicit
branch conditions holds. -/
def fallbackTaken (left_fwd left_rev right_fwd right_rev : Int) : Prop :=
  let speed_left := netSpeed left_fwd left_rev
  let speed_right := netSpeed right_fwd right_rev
  ¬(speed_left = 0 ∧ speed_right = 0) ∧
  ¬(speed_left > 0 ∧ speed_right > 0) ∧
  ¬(speed_left < 0 ∧ speed_right < 0) ∧
  ¬(speed_left < 0 ∧ speed_right > 0) ∧
  ¬(speed_left > 0 ∧ speed_right < 0)

instance (a b c d : Int) : Decidable (fallbackTaken a b c d) := by
  unfold fallbackTaken; exact inferInstance

/-! ## Theorems about the CommandTranslator -/

/-- C2: the net speed of a side is 0 when both duties are positive and
forward − reverse otherwise; for duties in [0,100] it lies in [-100,100]. -/
theorem netSpeed_zero_cancel_and_range (fwd rev : Int)
    (hf0 : 0 ≤ fwd) (hf1 : fwd ≤ 100) (hr0 : 0 ≤ rev) (hr1 : rev ≤ 100) :
    (fwd > 0 → rev > 0 → netSpeed fwd rev = 0) ∧
    ((fwd ≤ 0 ∨ rev ≤ 0) → netSpeed fwd rev = fwd - rev) ∧
    -100 ≤ netSpeed fwd rev ∧ netSpeed fwd rev ≤ 100 := by
  unfold netSpeed
  split <;> refine ⟨?_, ?_, ?_, ?_⟩ <;> omega

/-- Closed witness for C2 at fwd = 30, rev = 30. -/
theorem netSpeed_zero_cancel_and_range_witness :
    (0 ≤ (30:Int) ∧ (30:Int) ≤ 100) ∧
    ((30:Int) > 0 → (30:Int) > 0 → netSpeed 30 30 = 0) ∧
    (((30:Int) ≤ 0 ∨ (30:Int) ≤ 0) → netSpeed 30 30 = 30 - 30) ∧
    -100 ≤ netSpeed 30 30 ∧ netSpeed 30 30 ≤ 100 :=
  ⟨by decide,
   netSpeed_zero_cancel_and_range 30 30 (by decide) (by decide) (by decide) (by decide)⟩

/-- C3 counterexample: with in-range duties left = [0,0], right = [50,0]
(net speeds 0 and 50) the defensive fallback branch IS taken, so it is not
unreachable. -/
theorem fallback_reachable_counterexample :
    fallbackTaken 0 0 50 0 ∧
    (0:Int) ≤ 0 ∧ (0:Int) ≤ 100 ∧ (0:Int) ≤ 50 ∧ (50:Int) ≤ 100 := by
  constructor
  · unfold fallbackTaken netSpeed; norm_num
  · norm_num

/-- C3 (amended): steps 1-6 cover only the cases where the two net speeds
are both zero, both positive, both negative, or of strictly opposite signs;
the fallback is taken exactly when one net speed is zero and the other is
not, and the translator then returns Stop. -/
theorem fallback_iff_one_sided_zero (left_fwd left_rev right_fwd right_rev : Int) :
    (fallbackTaken left_fwd left_rev right_fwd right_rev ↔
      ((netSpeed left_fwd left_rev = 0 ∧ netSpeed right_fwd right_rev ≠ 0) ∨
       (netSpeed left_fwd left_rev ≠ 0 ∧ netSpeed right_fwd right_rev = 0))) ∧
    (fallbackTaken left_fwd left_rev right_fwd right_rev →
      calculate_motor_command left_fwd left_rev right_fwd right_rev = .stop) := by
  constructor
  · unfold fallbackTaken
    constructor
    · intro h; omega
    · intro h; omega
  · intro h
    unfold fallbackTaken at h
    unfold calculate_motor_command
    dsimp only
    split
    · rfl
    · split
      · omega
      · split
        · omega
        · split
          · omega
          · split
            · omega
            · rfl

/-- Closed witness for the amended C3 at left = [0,0], right = [50,0]. -/
theorem fallback_iff_one_sided_zero_witness :
    calculate_motor_command 0 0 50 0 = Maneuver.stop :=
  (fallback_iff_one_sided_zero 0 0 50 0).2 (by decide)

/-- C4: when the left net speed is negative and the right net speed is
positive the translator returns SpinLeft with the truncated integer average
of the two magnitudes; symmetrically for SpinRight. -/
theorem spin_speed_is_truncated_average (left_fwd left_rev right_fwd right_rev : Int) :
    (netSpeed left_fwd left_rev < 0 → 0 < netSpeed right_fwd right_rev →
      calculate_motor_command left_fwd left_rev right_fwd right_rev =
        .spinLeft ((abs (netSpeed left_fwd left_rev) + abs (netSpeed right_fwd right_rev)) / 2)) ∧
    (0 < netSpeed left_fwd left_rev → netSpeed right_fwd right_rev < 0 →
      calculate_motor_command left_fwd left_rev right_fwd right_rev =
        .spinRight ((abs (netSpeed left_fwd left_rev) + abs (netSpeed right_fwd right_rev)) / 2)) := by
  constructor
  · intro hl hr
    unfold calculate_motor_command
    dsimp only
    split
    · omega
    · split
      · omega
      · split
        · omega
        · split
          · rfl
          · omega
  · intro hl hr
    unfold calculate_motor_command
    dsimp only
    split
    · omega
    · split
      · omega
      · split
        · omega
        · split
          · omega
          · split
            · rfl
            · omega

/-- Closed witness for C4: left = [0,40], right = [40,0] gives net speeds
(-40, 40) and SpinLeft(40). -/
theorem spin_speed_is_truncated_average_witness :
    netSpeed 0 40 < 0 ∧ 0 < netSpeed 40 0 ∧
    calculate_motor_command 0 40 40 0 = Maneuver.spinLeft 40 := by
  refine ⟨by decide, by decide, ?_⟩
  have h := (spin_speed_is_truncated_average 0 40 40 0).1 (by decide) (by decide)
  simpa using h

/-! ## DirectionalActuator (rover_web_driver.py, RoverWebDriver)

Each operation is embedded as a function from the driver's mutable
direction state to the list of externally visible events it produces
(HTTP messages posted to the actuator and sleeps) together with the new
direction state. -/

/-- A JSON message posted to the actuator: either a wheel-motor message
`{'wheelMotors': {'l': [lf, lr], 'r': [rf, rr]}}` or a servo message
`{'servos': {id: deg}}`. -/
inductive Msg
  | wheel (lf lr rf rr : Int)
  | servo (id deg : Int)
deriving DecidableEq, Repr

/-- An externally visible event of a driver operation. -/
inductive Event
  | send (m : Msg)
  | sleepMs (ms : Nat)
deriving DecidableEq, Repr

/-- The message `{'wheelMotors': {'l': [0, 0], 'r': [0, 0]}}` sent by
stop() and brake(). -/
def stopMsg : Msg := .wheel 0 0 0 0

/-- The settle pause `sleep(0.2)` (200 ms) used by the reversal guards. -/
def settleMs : Nat := 200

/-- The driver's direction state: fields `lDir` and `rDir`, both
initialised to 0 in `__init__`. -/
structure DirectionState where
  lDir : Int
  rDir : Int
deriving DecidableEq, Repr

/-- The fresh state after `__init__` (lines 98-99): both directions 0. -/
def initState : DirectionState := ⟨0, 0⟩

/-- stop() (lines 136-140): zero both directions, send the stop message. -/
def stop (_s : DirectionState) : List Event × DirectionState :=
  ([Event.send stopMsg], ⟨0, 0⟩)

/-- brake() (lines 143-147): zero both directions, send the stop message. -/
def brake (_s : DirectionState) : List Event × DirectionState :=
  ([Event.send stopMsg], ⟨0, 0⟩)

/-- forward(speed) (lines 150-162): brake and settle if either side was in
reverse, reset the four steering servos to 0, set both directions to 1 and
send the forward wheel message. -/
def forward (s : DirectionState) (speed : Int) : List Event × DirectionState :=
  ((if s.lDir = -1 ∨ s.rDir = -1 then [Event.send stopMsg, Event.sleepMs settleMs] else []) ++
    [Event.send (Msg.servo 9 0), Event.send (Msg.servo 15 0),
     Event.send (Msg.servo 11 0), Event.send (Msg.servo 13 0),
     Event.send (Msg.wheel speed 0 speed 0)],
   ⟨1, 1⟩)

/-- reverse(speed) (lines 165-177): brake and settle if either side was in
forward, reset the four steering servos to 0, set both directions to -1 and
send the reverse wheel message. -/
def reverse (s : DirectionState) (speed : Int) : List Event × DirectionState :=
  ((if s.lDir = 1 ∨ s.rDir = 1 then [Event.send stopMsg, Event.sleepMs settleMs] else []) ++
    [Event.send (Msg.servo 9 0), Event.send (Msg.servo 15 0),
     Event.send (Msg.servo 11 0), Event.send (Msg.servo 13 0),
     Event.send (Msg.wheel 0 speed 0 speed)],
   ⟨-1, -1⟩)

/-- spinLeft(speed) (lines 180-192): brake and settle if left was forward
or right was reverse, set the four pivot servo angles, set directions to
(-1, 1) and send the spin wheel message. -/
def spinLeft (s : DirectionState) (speed : Int) : List Event × DirectionState :=
  ((if s.lDir = 1 ∨ s.rDir = -1 then [Event.send stopMsg, Event.sleepMs settleMs] else []) ++
    [Event.send (Msg.servo 9 50), Event.send (Msg.servo 15 (-50)),
     Event.send (Msg.servo 11 (-50)), Event.send (Msg.servo 13 50),
     Event.send (Msg.wheel 0 speed speed 0)],
   ⟨-1, 1⟩)

/-- spinRight(speed) (lines 195-207): brake and settle if left was reverse
or right was forward, set the four pivot servo angles, set directions to
(1, -1) and send the spin wheel message. -/
def spinRight (s : DirectionState) (speed : Int) : List Event × DirectionState :=
  ((if s.lDir = -1 ∨ s.rDir = 1 then [Event.send stopMsg, Event.sleepMs settleMs] else []) ++
    [Event.send (Msg.servo 9 50), Event.send (Msg.servo 15 (-50)),
     Event.send (Msg.servo 11 (-50)), Event.send (Msg.servo 13 50),
     Event.send (Msg.wheel speed 0 0 speed)],
   ⟨1, -1⟩)

/-- turnForward(leftSpeed, rightSpeed) (lines 210-217): brake and settle if
either side was in reverse, set directions to (1, 1), send the wheel
message; no servo changes. -/
def turnForward (s : DirectionState) (leftSpeed rightSpeed : Int) :
    List Event × DirectionState :=
  ((if s.lDir = -1 ∨ s.rDir = -1 then [Event.send stopMsg, Event.sleepMs settleMs] else []) ++
    [Event.send (Msg.wheel leftSpeed 0 rightSpeed 0)],
   ⟨1, 1⟩)

/-- turnReverse(leftSpeed, rightSpeed) (lines 220-227): brake and settle if
either side was in forward, set directions to (-1, -1), send the wheel
message; no servo changes. -/
def turnReverse (s : DirectionState) (leftSpeed rightSpeed : Int) :
    List Event × DirectionState :=
  ((if s.lDir = 1 ∨ s.rDir = 1 then [Event.send stopMsg, Event.sleepMs settleMs] else []) ++
    [Event.send (Msg.wheel 0 leftSpeed 0 rightSpeed)],
   ⟨-1, -1⟩)

/-- setServo(Servo, Degrees) (lines 349-351): sends one servo message and
does not touch the direction state. -/
def setServo (s : DirectionState) (id deg : Int) : List Event × DirectionState :=
  ([Event.send (Msg.servo id deg)], s)

/-- setPixel (lines 311-313): body is `pass` in this driver, so it sends
nothing and does not touch the direction state. -/
def setPixel (s : DirectionState) (_id _color : Int) : List Event × DirectionState :=
  ([], s)

/-- show() (lines 315-316): body is `pass`, no events, no state change. -/
def ledShow (s : DirectionState) : List Event × DirectionState :=
  ([], s)

/-- clear() (lines 318-320): loops setPixel, which is `pass`; no events,
no state change. -/
def clear (s : DirectionState) : List Event × DirectionState :=
  ([], s)

/-- The operations of the driver, as an operation alphabet. -/
inductive Op
  | stop
  | brake
  | forward (speed : Int)
  | reverse (speed : Int)
  | spinLeft (speed : Int)
  | spinRight (speed : Int)
  | turnForward (leftSpeed rightSpeed : Int)
  | turnReverse (leftSpeed rightSpeed : Int)
  | setServo (id deg : Int)
  | setPixel (id color : Int)
  | ledShow
  | clear
deriving DecidableEq, Repr

/-- Dispatch an operation on the current direction state. -/
def step (op : Op) (s : DirectionState) : List Event × DirectionState :=
  match op with
  | .stop => stop s
  | .brake => brake s
  | .forward sp => forward s sp
  | .reverse sp => reverse s sp
  | .spinLeft sp => spinLeft s sp
  | .spinRight sp => spinRight s sp
  | .turnForward l r => turnForward s l r
  | .turnReverse l r => turnReverse s l r
  | .setServo i d => setServo s i d
  | .setPixel i c => setPixel s i c
  | .ledShow => ledShow s
  | .clear => clear s

/-- A side's direction flips between forward(1) and reverse(-1) when going
from state `s` to state `t`. -/
def flips (s t : DirectionState) : Prop :=
  (s.lDir = 1 ∧ t.lDir = -1) ∨ (s.lDir = -1 ∧ t.lDir = 1) ∨
  (s.rDir = 1 ∧ t.rDir = -1) ∨ (s.rDir = -1 ∧ t.rDir = 1)

instance (s t : DirectionState) : Decidable (flips s t) := by
  unfold flips; exact inferInstance

/-- Both direction fields lie in {-1, 0, 1}. -/
def validDirs (s : DirectionState) : Prop :=
  (s.lDir = -1 ∨ s.lDir = 0 ∨ s.lDir = 1) ∧ (s.rDir = -1 ∨ s.rDir = 0 ∨ s.rDir = 1)

instance (s : DirectionState) : Decidable (validDirs s) := by
  unfold validDirs; exact inferInstance

/-- The servo messages (id, degrees) sent by a trace, in order. -/
def servoSends (tr : List Event) : List (Int × Int) :=
  tr.filterMap fun e =>
    match e with
    | .send (.servo i d) => some (i, d)
    | _ => none

/-! ## Transport failure model (_send_command / cleanup) -/

/-- The exceptions `requests.post` may raise, as seen by `_send_command`:
the two connectivity errors it catches, and anything else. -/
inductive NetError
  | connectionError
  | timeout
  | otherError
deriving DecidableEq, Repr

/-- Outcome of one `requests.post` call: success or an exception. -/
inductive NetOutcome
  | ok
  | raise (e : NetError)
deriving DecidableEq, Repr

/-- _send_command (lines 101-107): posts the message inside a try/except
that catches ConnectionError and Timeout and ignores them; any other
exception propagates. -/
def sendCommand (o : NetOutcome) : Except NetError Unit :=
  match o with
  | .ok => .ok ()
  | .raise .connectionError => .ok ()
  | .raise .timeout => .ok ()
  | .raise .otherError => .error .otherError

/-- stop() under the transport model: `self.lDir = 0` and `self.rDir = 0`
execute before `_send_command`, so the state update takes effect whatever
the transport does; the call's outcome is that of `_send_command`. -/
def stopNet (_s : DirectionState) (o : NetOutcome) :
    DirectionState × Except NetError Unit :=
  (⟨0, 0⟩, sendCommand o)

/-- cleanup() (lines 119-127): runs stop() inside a try/except that again
catches ConnectionError and Timeout (`self.leds` is never assigned in this
driver, so the clear/show branch is dead code). -/
def cleanupNet (s : DirectionState) (o : NetOutcome) :
    DirectionState × Except NetError Unit :=
  let r := stopNet s o
  match r.2 with
  | .ok _ => (r.1, .ok ())
  | .error .connectionError => (r.1, .ok ())
  | .error .timeout => (r.1, .ok ())
  | .error e => (r.1, .error e)

/-! ## Theorems about the DirectionalActuator -/

/-- C1: whenever a driver operation flips a side's direction between
forward(1) and reverse(-1), its event trace is exactly one Stop command,
then a settle pause of settleMs ≥ 200 ms, then servo messages only, then
the new wheel drive command — so the drive command is preceded by exactly
one intervening Stop and the settle pause. -/
theorem reversal_goes_through_stop_and_settle (op : Op) (s : DirectionState)
    (h : flips s (step op s).2) :
    ∃ mid lf lr rf rr,
      (step op s).1 =
        Event.send stopMsg :: Event.sleepMs settleMs ::
          (mid ++ [Event.send (Msg.wheel lf lr rf rr)]) ∧
      (∀ e ∈ mid, ∃ i d, e = Event.send (Msg.servo i d)) ∧
      200 ≤ settleMs := by
  cases op with
  | stop =>
      exfalso; simp [flips, step, stop] at h
  | brake =>
      exfalso; simp [flips, step, brake] at h
  | setServo i d =>
      exfalso; simp [flips, step, setServo] at h; omega
  | setPixel i c =>
      exfalso; simp [flips, step, setPixel] at h; omega
  | ledShow =>
      exfalso; simp [flips, step, ledShow] at h; omega
  | clear =>
      exfalso; simp [flips, step, clear] at h; omega
  | forward sp =>
      have hg : s.lDir = -1 ∨ s.rDir = -1 := by
        simpa [flips, step, forward] using h
      refine ⟨[Event.send (Msg.servo 9 0), Event.send (Msg.servo 15 0),
               Event.send (Msg.servo 11 0), Event.send (Msg.servo 13 0)],
              sp, 0, sp, 0, ?_, ?_, by norm_num [settleMs]⟩
      · rcases hg with hg|hg <;> simp [step, forward, hg]
      · intro e he
        simp at he
        rcases he with rfl|rfl|rfl|rfl <;> exact ⟨_, _, rfl⟩
  | reverse sp =>
      have hg : s.lDir = 1 ∨ s.rDir = 1 := by
        simpa [flips, step, reverse] using h
      refine ⟨[Event.send (Msg.servo 9 0), Event.send (Msg.servo 15 0),
               Event.send (Msg.servo 11 0), Event.send (Msg.servo 13 0)],
              0, sp, 0, sp, ?_, ?_, by norm_num [settleMs]⟩
      · rcases hg with hg|hg <;> simp [step, reverse, hg]
      · intro e he
        simp at he
        rcases he with rfl|rfl|rfl|rfl <;> exact ⟨_, _, rfl⟩
  | spinLeft sp =>
      have hg : s.lDir = 1 ∨ s.rDir = -1 := by
        simpa [flips, step, spinLeft] using h
      refine ⟨[Event.send (Msg.servo 9 50), Event.send (Msg.servo 15 (-50)),
               Event.send (Msg.servo 11 (-50)), Event.send (Msg.servo 13 50)],
              0, sp, sp, 0, ?_, ?_, by norm_num [settleMs]⟩
      · rcases hg with hg|hg <;> simp [step, spinLeft, hg]
      · intro e he
        simp at he
        rcases he with rfl|rfl|rfl|rfl <;> exact ⟨_, _, rfl⟩
  | spinRight sp =>
      have hg : s.lDir = -1 ∨ s.rDir = 1 := by
        simpa [flips, step, spinRight] using h
      refine ⟨[Event.send (Msg.servo 9 50), Event.send (Msg.servo 15 (-50)),
               Event.send (Msg.servo 11 (-50)), Event.send (Msg.servo 13 50)],
              sp, 0, 0, sp, ?_, ?_, by norm_num [settleMs]⟩
      · rcases hg with hg|hg <;> simp [step, spinRight, hg]
      · intro e he
        simp at he
        rcases he with rfl|rfl|rfl|rfl <;> exact ⟨_, _, rfl⟩
  | turnForward l r =>
      have hg : s.lDir = -1 ∨ s.rDir = -1 := by
        simpa [flips, step, turnForward] using h
      refine ⟨[], l, 0, r, 0, ?_, ?_, by norm_num [settleMs]⟩
      · rcases hg with hg|hg <;> simp [step, turnForward, hg]
      · intro e he
        simp at he
  | turnReverse l r =>
      have hg : s.lDir = 1 ∨ s.rDir = 1 := by
        simpa [flips, step, turnReverse] using h
      refine ⟨[], 0, l, 0, r, ?_, ?_, by norm_num [settleMs]⟩
      · rcases hg with hg|hg <;> simp [step, turnReverse, hg]
      · intro e he
        simp at he

/-- Closed witness for C1: forward(50) immediately after reverse(50) on a
fresh driver flips both sides and its trace is Stop, settle, servo resets,
then the Forward command. -/
theorem reversal_goes_through_stop_and_settle_witness :
    flips (step (Op.reverse 50) initState).2
      (step (Op.forward 50) (step (Op.reverse 50) initState).2).2 ∧
    (∃ mid lf lr rf rr,
      (step (Op.forward 50) (step (Op.reverse 50) initState).2).1 =
        Event.send stopMsg :: Event.sleepMs settleMs ::
          (mid ++ [Event.send (Msg.wheel lf lr rf rr)]) ∧
      (∀ e ∈ mid, ∃ i d, e = Event.send (Msg.servo i d)) ∧
      200 ≤ settleMs) :=
  ⟨by decide,
   reversal_goes_through_stop_and_settle (Op.forward 50)
     (step (Op.reverse 50) initState).2 (by decide)⟩

/-- C5 counterexample: at speed 50 (fresh state) spinRight issues exactly
the same four (servo, degrees) pairs as spinLeft — the configurations are
identical, refuting that spinRight's angles differ from spinLeft's. -/
theorem spin_servo_identical_counterexample :
    servoSends (spinRight initState 50).1 = servoSends (spinLeft initState 50).1 ∧
    servoSends (spinLeft initState 50).1 = [(9, 50), (15, -50), (11, -50), (13, 50)] := by
  decide

/-- Mirror a (servo id, degrees) pair left-to-right: front-left(9) swaps
with front-right(15) and rear-left(11) with rear-right(13), negating the
angle. -/
def mirrorServo (p : Int × Int) : Int × Int :=
  if p.1 = 9 then (15, -p.2)
  else if p.1 = 15 then (9, -p.2)
  else if p.1 = 11 then (13, -p.2)
  else if p.1 = 13 then (11, -p.2)
  else p

/-- C5 (amended): for every speed and prior state, spinRight applies the
identical four-servo pivot configuration that spinLeft applies; this shared
configuration is its own left/right mirror image (up to order), so the
mirrored assignment coincides with the identical one. -/
theorem spin_servo_config_shared_and_self_mirror
    (s t : DirectionState) (speed : Int) :
    servoSends (spinRight s speed).1 = servoSends (spinLeft t speed).1 ∧
    ((servoSends (spinLeft t speed).1).map mirrorServo).Perm
      (servoSends (spinLeft t speed).1) := by
  have hL : servoSends (spinLeft t speed).1 = [(9, 50), (15, -50), (11, -50), (13, 50)] := by
    unfold spinLeft servoSends
    split <;> rfl
  have hR : servoSends (spinRight s speed).1 = [(9, 50), (15, -50), (11, -50), (13, 50)] := by
    unfold spinRight servoSends
    split <;> rfl
  refine ⟨by rw [hL, hR], ?_⟩
  rw [hL]
  decide

/-- C6: stop() is idempotent: from any state a single stop() zeroes both
directions and sends one Stop message; a second stop() sends a second Stop
message and leaves the state at {0,0}; and under any transport outcome
short of a non-connectivity exception, neither call raises. -/
theorem stop_idempotent (s : DirectionState) (o1 o2 : NetOutcome)
    (h1 : o1 ≠ .raise .otherError) (h2 : o2 ≠ .raise .otherError) :
    (stop s).2 = ⟨0, 0⟩ ∧
    (stop s).1 = [Event.send stopMsg] ∧
    (stop (stop s).2).2 = ⟨0, 0⟩ ∧
    (stop s).1 ++ (stop (stop s).2).1 = [Event.send stopMsg, Event.send stopMsg] ∧
    (stopNet s o1).2 = Except.ok () ∧
    (stopNet (stopNet s o1).1 o2).2 = Except.ok () := by
  refine ⟨rfl, rfl, rfl, rfl, ?_, ?_⟩
  · cases o1 with
    | ok => rfl
    | raise e => cases e <;> first | rfl | exact absurd rfl h1
  · cases o2 with
    | ok => rfl
    | raise e => cases e <;> first | rfl | exact absurd rfl h2

/-- Closed witness for C6 at state (1, -1) with a clean transport. -/
theorem stop_idempotent_witness :
    (stop ⟨1, -1⟩).2 = (⟨0, 0⟩ : DirectionState) ∧
    (stop ⟨1, -1⟩).1 = [Event.send stopMsg] ∧
    (stop (stop ⟨1, -1⟩).2).2 = (⟨0, 0⟩ : DirectionState) ∧
    (stop ⟨1, -1⟩).1 ++ (stop (stop ⟨1, -1⟩).2).1 =
      [Event.send stopMsg, Event.send stopMsg] ∧
    (stopNet ⟨1, -1⟩ .ok).2 = Except.ok () ∧
    (stopNet (stopNet ⟨1, -1⟩ .ok).1 .ok).2 = Except.ok () :=
  stop_idempotent ⟨1, -1⟩ .ok .ok (by decide) (by decide)

/-- C8: if the transport raises a connectivity error (connection error or
timeout) during stop() or cleanup(), the call still returns normally and
both direction fields are still set to 0. -/
theorem transport_errors_swallowed (s : DirectionState) (o : NetOutcome)
    (h : o = .raise .connectionError ∨ o = .raise .timeout) :
    (stopNet s o).2 = Except.ok () ∧ (stopNet s o).1 = ⟨0, 0⟩ ∧
    (cleanupNet s o).2 = Except.ok () ∧ (cleanupNet s o).1 = ⟨0, 0⟩ := by
  rcases h with rfl|rfl <;> exact ⟨rfl, rfl, rfl, rfl⟩

/-- Closed witness for C8: a connection error during stop()/cleanup() from
state (1, 1). -/
theorem transport_errors_swallowed_witness :
    (stopNet ⟨1, 1⟩ (.raise .connectionError)).2 = Except.ok () ∧
    (stopNet ⟨1, 1⟩ (.raise .connectionError)).1 = (⟨0, 0⟩ : DirectionState) ∧
    (cleanupNet ⟨1, 1⟩ (.raise .connectionError)).2 = Except.ok () ∧
    (cleanupNet ⟨1, 1⟩ (.raise .connectionError)).1 = (⟨0, 0⟩ : DirectionState) :=
  transport_errors_swallowed ⟨1, 1⟩ (.raise .connectionError) (by decide)

/-- C9: brake() and stop() are extensionally equal — same events, same
resulting state — and the message both send is
`{'wheelMotors': {'l': [0, 0], 'r': [0, 0]}}`; hence the brake issued by
every direction-reversal guard is exactly a Stop command. -/
theorem brake_eq_stop (s : DirectionState) :
    brake s = stop s ∧
    (brake s).1 = [Event.send (Msg.wheel 0 0 0 0)] ∧
    stopMsg = Msg.wheel 0 0 0 0 :=
  ⟨rfl, rfl, rfl⟩

/-- The direction pair each operation is specified to leave behind:
stop/brake (0,0); forward and turnForward (1,1); reverse and turnReverse
(-1,-1); spinLeft (-1,1); spinRight (1,-1); servo and LED operations leave
the state unchanged. -/
def impliedDirs (op : Op) (s : DirectionState) : DirectionState :=
  match op with
  | .stop | .brake => ⟨0, 0⟩
  | .forward _ | .turnForward _ _ => ⟨1, 1⟩
  | .reverse _ | .turnReverse _ _ => ⟨-1, -1⟩
  | .spinLeft _ => ⟨-1, 1⟩
  | .spinRight _ => ⟨1, -1⟩
  | .setServo _ _ | .setPixel _ _ | .ledShow | .clear => s

/-- C10: every operation takes the direction state to exactly the
maneuver's implied per-side signs (non-motor operations leave it
unchanged), and the invariant that both fields lie in {-1,0,1} is
preserved. -/
theorem direction_state_invariant (op : Op) (s : DirectionState) :
    (step op s).2 = impliedDirs op s ∧
    (validDirs s → validDirs (step op s).2) := by
  cases op <;>
    refine ⟨rfl, fun hv => ?_⟩ <;>
    dsimp only [step, stop, brake, forward, reverse, spinLeft, spinRight,
                turnForward, turnReverse, setServo, setPixel, ledShow, clear] <;>
    first | exact hv | decide

/-- Closed witness for C10: spinLeft(30) from the fresh (valid) state lands
on (-1, 1), which is valid. -/
theorem direction_state_invariant_witness :
    (step (Op.spinLeft 30) initState).2 = impliedDirs (Op.spinLeft 30) initState ∧
    validDirs (step (Op.spinLeft 30) initState).2 :=
  ⟨(direction_state_invariant (Op.spinLeft 30) initState).1,
   (direction_state_invariant (Op.spinLeft 30) initState).2 (by decide)⟩

/-! ## Server steer branch (real-rover/rover_server.py, control_rover) -/

/-- One call made by the server's steerLeft branch: to the rover actuator
API, the LED animation control, or the clock. -/
inductive SrvAct
  | callForward (speed : Int)
  | callStop
  | callSetServo (id deg : Int)
  | callSleep (seconds : Int)
  | callSetPixel (id : Int) (color : Nat)
  | callShow
  | callStopAnimation
deriving DecidableEq, Repr

/-- fromRGB (rover_web_driver.py lines 326-327, same packing as the
hardware library's): (red << 16) + (green << 8) + blue. -/
def fromRGB (red green blue : Nat) : Nat :=
  (red <<< 16) + (green <<< 8) + blue

/-- The steerLeft branch of control_rover (rover_server.py lines 208-240):
forward(speed), stop the spin animation, the four steering servo angles,
the LED updates; then, only when seconds > 0, sleep for the duration,
stop, reset the four servos to neutral and set the LEDs white. -/
def steerLeftTrace (degrees seconds speed : Int) : List SrvAct :=
  [SrvAct.callForward speed,
   SrvAct.callStopAnimation,
   SrvAct.callSetServo 9 (-degrees),
   SrvAct.callSetServo 15 (-degrees),
   SrvAct.callSetServo 11 degrees,
   SrvAct.callSetServo 13 degrees,
   SrvAct.callSetPixel 1 (fromRGB 0 0 255),
   SrvAct.callSetPixel 2 (fromRGB 0 0 255),
   SrvAct.callSetPixel 0 (fromRGB 255 255 255),
   SrvAct.callSetPixel 3 (fromRGB 255 255 255),
   SrvAct.callShow] ++
  (if seconds > 0 then
    [SrvAct.callSleep seconds,
     SrvAct.callStop,
     SrvAct.callSetServo 9 0, SrvAct.callSetServo 15 0,
     SrvAct.callSetServo 11 0, SrvAct.callSetServo 13 0,
     SrvAct.callSetPixel 0 (fromRGB 255 255 255),
     SrvAct.callSetPixel 1 (fromRGB 255 255 255),
     SrvAct.callSetPixel 2 (fromRGB 255 255 255),
     SrvAct.callSetPixel 3 (fromRGB 255 255 255),
     SrvAct.callShow]
   else [])

/-- Recognise a forward call. -/
def isForwardCall : SrvAct → Bool
  | .callForward _ => true
  | _ => false

/-- Recognise a sleep (blocking) call. -/
def isSleepCall : SrvAct → Bool
  | .callSleep _ => true
  | _ => false

/-- Recognise a stop call. -/
def isStopCall : SrvAct → Bool
  | .callStop => true
  | _ => false

/-- The (servo id, degrees) calls of a server trace, in order. -/
def srvServoCalls (tr : List SrvAct) : List (Int × Int) :=
  tr.filterMap fun a =>
    match a with
    | .callSetServo i d => some (i, d)
    | _ => none

/-- C7: the steerLeft branch always makes exactly one forward call; with
seconds ≤ 0 it makes exactly the one set of four steering servo calls, no
sleep and no stop (it returns without blocking); with seconds > 0 it sleeps
exactly once, for the requested duration, followed by Stop and the four
servo-neutral calls. -/
theorem steer_left_timing (degrees seconds speed : Int) :
    (steerLeftTrace degrees seconds speed).countP isForwardCall = 1 ∧
    (seconds ≤ 0 →
      srvServoCalls (steerLeftTrace degrees seconds speed) =
        [(9, -degrees), (15, -degrees), (11, degrees), (13, degrees)] ∧
      (steerLeftTrace degrees seconds speed).countP isSleepCall = 0 ∧
      (steerLeftTrace degrees seconds speed).countP isStopCall = 0) ∧
    (0 < seconds →
      (steerLeftTrace degrees seconds speed).countP isSleepCall = 1 ∧
      ∃ pre post,
        steerLeftTrace degrees seconds speed =
          pre ++ SrvAct.callSleep seconds :: SrvAct.callStop ::
            SrvAct.callSetServo 9 0 :: SrvAct.callSetServo 15 0 ::
            SrvAct.callSetServo 11 0 :: SrvAct.callSetServo 13 0 :: post) := by
  refine ⟨?_, ?_, ?_⟩
  · unfold steerLeftTrace
    split <;> rfl
  · intro h
    have hng : ¬ (seconds > 0) := by omega
    unfold steerLeftTrace
    rw [if_neg hng]
    exact ⟨rfl, rfl, rfl⟩
  · intro h
    unfold steerLeftTrace
    rw [if_pos h]
    refine ⟨rfl,
      [SrvAct.callForward speed,
       SrvAct.callStopAnimation,
       SrvAct.callSetServo 9 (-degrees),
       SrvAct.callSetServo 15 (-degrees),
       SrvAct.callSetServo 11 degrees,
       SrvAct.callSetServo 13 degrees,
       SrvAct.callSetPixel 1 (fromRGB 0 0 255),
       SrvAct.callSetPixel 2 (fromRGB 0 0 255),
       SrvAct.callSetPixel 0 (fromRGB 255 255 255),
       SrvAct.callSetPixel 3 (fromRGB 255 255 255),
       SrvAct.callShow],
      [SrvAct.callSetPixel 0 (fromRGB 255 255 255),
       SrvAct.callSetPixel 1 (fromRGB 255 255 255),
       SrvAct.callSetPixel 2 (fromRGB 255 255 255),
       SrvAct.callSetPixel 3 (fromRGB 255 255 255),
       SrvAct.callShow], ?_⟩
    rfl

/-- Closed witness for C7 with degrees = 20, seconds = 2, speed = 60. -/
theorem steer_left_timing_witness :
    (steerLeftTrace 20 2 60).countP isForwardCall = 1 ∧
    (steerLeftTrace 20 2 60).countP isSleepCall = 1 ∧
    (∃ pre post,
      steerLeftTrace 20 2 60 =
        pre ++ SrvAct.callSleep 2 :: SrvAct.callStop ::
          SrvAct.callSetServo 9 0 :: SrvAct.callSetServo 15 0 ::
          SrvAct.callSetServo 11 0 :: SrvAct.callSetServo 13 0 :: post) :=
  ⟨(steer_left_timing 20 2 60).1,
   ((steer_left_timing 20 2 60).2.2 (by decide)).1,
   ((steer_left_timing 20 2 60).2.2 (by decide)).2⟩

end Rover
